import Mathlib

/-!
Verification development for the file I/O layer of the `fugue` repository
(`src/fugue/_utils/io.py`).  The Python source is shallowly embedded:
pure computations become Lean functions, exceptions become `Except PyError`,
and the borrowed file-system collaborator becomes an explicit `FSModel`
record of query results.  Each embedded definition is named after the
source symbol it translates.
-/

/-- Exceptions raised by the source or its collaborators, tagged by the
Python exception class (`NotImplementedError`, `AssertionError` from
`assert_or_throw` with a string message, `FileExistsError`,
`triad.exceptions.InvalidOperationError`, `KeyError`, `TypeError`,
`ValueError` from `pd.concat`, `NameError`, bare `Exception`).
`fuelOut` is an artifact of the bounded model of the recursive generator
`_get_single_files`; it is never produced on the runs the theorems use. -/
inductive PyError where
  | notImplemented (msg : String)
  | assertionError (msg : String)
  | fileExists (path : String)
  | invalidOperation (msg : String)
  | keyError (key : String)
  | typeError (msg : String)
  | valueError (msg : String)
  | nameError (name : String)
  | exn (msg : String)
  | fuelOut
  deriving Repr, DecidableEq

/-- Untyped Python values as they appear in the option bags (`kwargs`,
`ParamDict`) of the source: booleans, `None`, integers and strings. -/
inductive PyVal where
  | bool (b : Bool)
  | pynone
  | int (n : Int)
  | str (s : String)
  deriving Repr, DecidableEq

/-- Python's `str` applied to a `PyVal` (`str(True) = "True"`,
`str(None) = "None"`, `str(0) = "0"`, strings unchanged). -/
def pyStr : PyVal → String
  | .bool true => "True"
  | .bool false => "False"
  | .pynone => "None"
  | .int n => toString n
  | .str s => s

/-- Python truthiness of a `PyVal`. -/
def pyTruthy : PyVal → Bool
  | .bool b => b
  | .pynone => false
  | .int n => decide (n ≠ 0)
  | .str s => decide (s ≠ "")

/-- Lookup in an option bag (`kwargs` / `ParamDict`): first binding wins. -/
def lookupKw (kw : List (String × PyVal)) (k : String) : Option PyVal :=
  match kw with
  | [] => Option.none
  | (k', v) :: rest => if k' = k then Option.some v else lookupKw rest k

/-- Deletion from an option bag (`del kw[k]` after a membership check). -/
def removeKw (kw : List (String × PyVal)) (k : String) : List (String × PyVal) :=
  kw.filter (fun p => decide (p.1 ≠ k))

/-- Update/insert into an option bag (`kw[k] = v`). -/
def setKw (kw : List (String × PyVal)) (k : String) (v : PyVal) : List (String × PyVal) :=
  (k, v) :: removeKw kw k

/-- Split a character list at every occurrence of `sep` (like Python
`str.split(sep)`): `splitOnChar '/' "a/b" = ["a","b"]`, keeping empty parts. -/
def splitOnChar (sep : Char) : List Char → List (List Char)
  | [] => [[]]
  | c :: rest =>
    match splitOnChar sep rest with
    | [] => [[]]
    | h :: t => if c = sep then [] :: h :: t else (c :: h) :: t

/-- Trailing-match test used by the source's suffix lookup
(`self.suffix.endswith(k)`): true when `w` is a suffix of `l`. -/
def endsWithL (l w : List Char) : Bool :=
  decide (l.drop (l.length - w.length) = w)

/-- String form of `endsWithL`. -/
def endsWithS (s w : String) : Bool :=
  endsWithL s.toList w.toList

/-- Substring test (Python `w in s` for strings). -/
def hasSubstr (l w : List Char) : Bool :=
  match l with
  | [] => decide (w = [])
  | _ :: rest => w.isPrefixOf l || hasSubstr rest w

/-- Final path component in the sense of `pathlib.PurePosixPath(s).name`:
split on `/`, drop empty and `"."` components, take the last (or `""`). -/
def pyName (cs : List Char) : List Char :=
  ((splitOnChar '/' cs).filter (fun c => !c.isEmpty && !(decide (c = ['.'])))).getLastD []

/-- Python's `"".join(pathlib.Path(s).suffixes)` applied to the final
component `name`: empty when the name ends in a dot, else the part of the
name from its first dot after skipping any leading dots (so `"a.csv.gz"`
gives `".csv.gz"`, the dot-file `".csv.gz"` gives only `".gz"`). -/
def pySuffixJoined (cs : List Char) : List Char :=
  let name := pyName cs
  if name.getLastD ' ' = '.' then []
  else (name.dropWhile (fun c => c = '.')).dropWhile (fun c => c ≠ '.')

/-- Model of POSIX `os.path.join(a, b)`: `b` absolute wins, otherwise a
single `/` is inserted unless `a` is empty or already ends in `/`. -/
def pyJoin (a b : String) : String :=
  if b.toList.headD ' ' = '/' then b
  else if a.toList = [] ∨ a.toList.getLastD ' ' = '/' then a ++ b
  else a ++ "/" ++ b

/-- Model of `os.path.basename`: the part after the last `/`. -/
def pyBasename (s : String) : String :=
  String.mk ((splitOnChar '/' s.toList).getLastD [])

/-- Result of `urllib.parse.urlparse` as used by the source (`scheme`,
`path`, `geturl`). -/
structure UrlParts where
  scheme : String
  upath : String
  deriving Repr, DecidableEq

/-- Model of `urllib.parse.urlparse`, faithful on the plain-path domain:
for a string that contains no `:`, `#`, `;` or `?` and does not start with
`//`, CPython returns scheme `""`, empty netloc/params/query/fragment and
`path` equal to the whole input, which is what this model produces.  The
theorems below only evaluate the parser on that domain. -/
def urlparseM (s : String) : UrlParts :=
  { scheme := "", upath := s }

/-- Model of `ParseResult.geturl()` on the same domain: with an empty
scheme and netloc it returns the path unchanged. -/
def UrlParts.geturl (u : UrlParts) : String :=
  u.upath

/-- The character scan of `FileParser.__init__` (lines 19-26): walk the
path, remembering the index of the last `/` or `\` seen (initialised to
`len(path)`), and stop at the first `*` or `?`.  Returns the final `last`
index and whether a glob character was found. -/
def globScanAux : List Char → Nat → Nat → Nat × Bool
  | [], _, last => (last, false)
  | c :: rest, i, last =>
    let last' := if c = '/' ∨ c = '\\' then i else last
    if c = '*' ∨ c = '?' then (last', true) else globScanAux rest (i + 1) last'

/-- Entry point of the scan: `last` starts at the length of the path. -/
def globScan (cs : List Char) : Nat × Bool :=
  globScanAux cs 0 cs.length

/-- The registry `_FORMAT_MAP` (lines 323-331), in declaration order. -/
def _FORMAT_MAP : List (String × String) :=
  [(".csv", "csv"), (".csv.gz", "csv"), (".parquet", "parquet"), (".json", "json"),
   (".json.gz", "json"), (".avro", "avro"), (".avro.gz", "avro")]

/-- Format inference (lines 37-41): the first registry entry whose suffix
key is a trailing match of the path's compound suffix wins; no match
raises `NotImplementedError`. -/
def inferFormat (sfx : String) : Except PyError String :=
  match _FORMAT_MAP.find? (fun kv => endsWithS sfx kv.1) with
  | Option.some kv => .ok kv.2
  | Option.none => .error (.notImplemented (sfx ++ " is not supported"))

/-- The parsed `FileParser` object: `scheme` and `uri` come from the
parsed URI (`_uri.scheme`, `_uri.geturl()`), `glob_pattern` and `path`
are `_glob_pattern` and `_path`, `file_format` is `_format`. -/
structure FileParser where
  scheme : String
  uri : String
  glob_pattern : String
  path : String
  file_format : String
  deriving Repr, DecidableEq

/-- Lines 19-34 of `FileParser.__init__`: the scan plus the two branches
setting `_uri`, `_glob_pattern` and `_path` (format still unresolved). -/
def preParse (p : String) : FileParser :=
  let cs := p.toList
  let scan := globScan cs
  if scan.2 then
    let u := urlparseM (String.mk (cs.take scan.1))
    let g := String.mk (cs.drop (scan.1 + 1))
    { scheme := u.scheme, uri := u.geturl, glob_pattern := g,
      path := pyJoin u.upath g, file_format := "" }
  else
    let u := urlparseM p
    { scheme := u.scheme, uri := u.geturl, glob_pattern := "",
      path := u.upath, file_format := "" }

/-- The `suffix` property (lines 69-71):
`"".join(pathlib.Path(self.path.lower()).suffixes)`. -/
def FileParser.suffix (f : FileParser) : String :=
  String.mk (pySuffixJoined (f.path.toList.map Char.toLower))

/-- Lines 36-47 of `FileParser.__init__`: a `None` or empty format hint
falls back to suffix inference over `_FORMAT_MAP`; a non-empty hint must
be one of the registry's format tags, else `NotImplementedError`. -/
def mkFileParser (p : String) (format_hint : Option String) : Except PyError FileParser :=
  let fp0 := preParse p
  match format_hint with
  | Option.none => (inferFormat fp0.suffix).map (fun fmt => { fp0 with file_format := fmt })
  | Option.some h =>
    if h = "" then (inferFormat fp0.suffix).map (fun fmt => { fp0 with file_format := fmt })
    else if h ∈ _FORMAT_MAP.map Prod.snd then .ok { fp0 with file_format := h }
    else .error (.notImplemented (h ++ " is not supported"))

/-- The compound suffix the parser computes for an input path (the
`suffix` property of the object built from it). -/
def pathSuffix (p : String) : String :=
  (preParse p).suffix

/-- Lines 49-51, `assert_no_glob`: return the parser unchanged when
`glob_pattern` is empty, else fail (`assert_or_throw` raises an
`AssertionError` carrying the message). -/
def FileParser.assert_no_glob (f : FileParser) : Except PyError FileParser :=
  if f.glob_pattern = "" then .ok f
  else .error (.assertionError (f.path ++ " has glob pattern"))

instance {ε α : Type} [DecidableEq ε] [DecidableEq α] : DecidableEq (Except ε α) := fun a b =>
  match a, b with
  | .ok x, .ok y => if h : x = y then isTrue (by rw [h]) else isFalse (by simp [h])
  | .error x, .error y => if h : x = y then isTrue (by rw [h]) else isFalse (by simp [h])
  | .ok _, .error _ => isFalse (by simp)
  | .error _, .ok _ => isFalse (by simp)

/-- The borrowed file-system collaborator (`triad.collections.fs.FileSystem`),
reduced to the query results the source consumes: `exists`, whether
`remove` / `removetree` succeed, `isdir`, the `.path` values produced by
`opendir(uri).glob(pattern)`, and the `.name` values produced by
`filterdir(uri, files=[pattern])`. -/
structure FSModel where
  fexists : String → Bool
  removeOk : String → Bool
  removetreeOk : String → Bool
  isdir : String → Bool
  globEntries : String → String → List String
  dirFiles : String → String → List String

/-- Mutating calls `save_df` makes against the outside world, in order:
`fs.remove`, `fs.removetree`, and the dispatch into
`_FORMAT_SAVE[format]` writing to the parser's uri. -/
inductive FSEffect where
  | remove (uri : String)
  | removetree (uri : String)
  | saveCall (fmt : String) (uri : String)
  deriving Repr, DecidableEq

/-- A dataframe: ordered column names plus rows of cells.  Cells are kept
as raw text, which matches the `dtype=object` reading the CSV loader
forces by default. -/
structure DF where
  cols : List String
  rows : List (List String)
  deriving Repr, DecidableEq

/-- A structured schema: ordered (column name, declared type) pairs. -/
abbrev SchemaM := List (String × String)

/-- The `columns` argument of the loaders: either a plain name list or a
structured schema (`triad` `Schema`). -/
inductive Columns where
  | names (l : List String)
  | schema (sc : SchemaM)
  deriving Repr, DecidableEq

/-- Lines 97-120, `save_df`: validate `mode`, parse the destination and
assert it has no glob, then if the destination exists fail with
`FileExistsError` unless `mode == "overwrite"`, in which case try
`fs.remove`, on failure try `fs.removetree`, and swallow a failure of the
latter; finally dispatch to the codec saver.  The result pairs the
ordered list of mutating calls with the outcome.  The dataframe argument
does not influence this control flow (the codecs are modelled
separately), so it is not inspected here. -/
def save_df (df : DF) (uri : String) (format_hint : Option String) (mode : String)
    (fs : FSModel) : List FSEffect × Except PyError Unit :=
  let _ := df
  if ¬(mode = "overwrite" ∨ mode = "error") then
    ([], .error (.notImplemented (mode ++ " is not supported")))
  else
    match (mkFileParser uri format_hint).bind FileParser.assert_no_glob with
    | .error e => ([], .error e)
    | .ok p =>
      if fs.fexists uri then
        if mode = "overwrite" then
          let removals :=
            FSEffect.remove uri :: (if fs.removeOk uri then [] else [FSEffect.removetree uri])
          (removals ++ [FSEffect.saveCall p.file_format p.uri], .ok ())
        else ([], .error (.fileExists uri))
      else ([FSEffect.saveCall p.file_format p.uri], .ok ())

/-- Eager error-propagating map, modelling the list comprehensions of
`_get_single_files` that build a `FileParser` per matched entry. -/
def mapExcept (g : α → Except PyError β) : List α → Except PyError (List β)
  | [] => .ok []
  | a :: rest =>
    match g a with
    | .error e => .error e
    | .ok b =>
      match mapExcept g rest with
      | .error e => .error e
      | .ok bs => .ok (b :: bs)

/-- Lines 123-139, `_get_single_files`: for each parser, a non-empty glob
pattern expands via `opendir(uri).glob(pattern)` into literal parsers
(re-parsed with NO format hint from `uri ⊕ basename(entry.path)`) which
are recursively expanded; otherwise an existing directory is listed with
`filterdir(uri, files=["*.<format>"])` and each entry yields a literal
parser (again parsed with no hint); otherwise the parser itself is
yielded.  The Python generator's recursion depth is bounded here by a
fuel parameter (`fuelOut` is never reached for the finite runs the
theorems exercise); the lazy sequence is modelled eagerly, which agrees
with the source whenever the sequence is consumed in full. -/
def _get_single_files (fs : FSModel) : Nat → List FileParser → Except PyError (List FileParser)
  | _, [] => .ok []
  | 0, _ :: _ => .error .fuelOut
  | fuel + 1, f :: rest =>
    if f.glob_pattern ≠ "" then
      match mapExcept
          (fun x => mkFileParser (pyJoin f.uri (pyBasename x)) Option.none)
          (fs.globEntries f.uri f.glob_pattern) with
      | .error e => .error e
      | .ok files =>
        match _get_single_files fs fuel files with
        | .error e => .error e
        | .ok a =>
          match _get_single_files fs (fuel + 1) rest with
          | .error e => .error e
          | .ok b => .ok (a ++ b)
    else if fs.isdir f.uri then
      match mapExcept
          (fun x => mkFileParser (pyJoin f.uri x) Option.none)
          (fs.dirFiles f.uri ("*." ++ f.file_format)) with
      | .error e => .error e
      | .ok files =>
        match _get_single_files fs (fuel + 1) rest with
        | .error e => .error e
        | .ok b => .ok (files ++ b)
    else
      match _get_single_files fs (fuel + 1) rest with
      | .error e => .error e
      | .ok b => .ok (f :: b)
  termination_by fuel fps => (fuel, fps.length)

/-- Model of `pandas.concat`: an empty list of frames raises `ValueError`;
otherwise the rows are concatenated in order (the source relies on the
per-file column sets being identical, per spec section 4.3). -/
def pd_concat (dfs : List DF) : Except PyError DF :=
  match dfs with
  | [] => .error (.valueError "No objects to concatenate")
  | d :: rest => .ok { cols := d.cols, rows := d.rows ++ (rest.map DF.rows).flatten }

/-- The loop of lines 89-93: for each enumerated file, call the loader on
`f.assert_no_glob()`, collect the frame and overwrite the running schema
with the one the loader returned (so the last file's schema survives).
The codec dispatch `_FORMAT_LOAD[f.file_format](...)` with its fixed
`columns` and `kwargs` arguments is abstracted as the function `L`. -/
def load_loop (L : FileParser → Except PyError (DF × Option SchemaM)) :
    List FileParser → Option SchemaM → Except PyError (List DF × Option SchemaM)
  | [], schema => .ok ([], schema)
  | f :: rest, _schema =>
    match f.assert_no_glob with
    | .error e => .error e
    | .ok f' =>
      match L f' with
      | .error e => .error e
      | .ok (df, s) =>
        match load_loop L rest s with
        | .error e => .error e
        | .ok (dfs, s') => .ok (df :: dfs, s')

/-- Line 94: build the final table from the collected frames via
`pd.concat` and attach the schema left by the loop (initially `None`). -/
def loadAndConcat (L : FileParser → Except PyError (DF × Option SchemaM))
    (files : List FileParser) : Except PyError (DF × Option SchemaM) :=
  match load_loop L files Option.none with
  | .error e => .error e
  | .ok (dfs, schema) =>
    match pd_concat dfs with
    | .error e => .error e
    | .ok c => .ok (c, schema)

/-- Lines 78-94, `load_df` (list-of-paths form; a single string wraps into
a one-element list): parse every path with the hint, enumerate single
files, run the loading loop and concatenate. -/
def load_df (L : FileParser → Except PyError (DF × Option SchemaM)) (fs : FSModel)
    (fuel : Nat) (uris : List String) (format_hint : Option String) :
    Except PyError (DF × Option SchemaM) :=
  match mapExcept (fun u => mkFileParser u format_hint) uris with
  | .error e => .error e
  | .ok fp =>
    match _get_single_files fs fuel fp with
    | .error e => .error e
    | .ok files => loadAndConcat L files

/-- A raw CSV file: its cell matrix (no header interpretation). -/
structure CSVFile where
  cells : List (List String)
  deriving Repr, DecidableEq

/-- Model of `pd.read_csv` with `header=0`: first row becomes the column
names, the rest the data. -/
def readCsvHeaderRow (file : CSVFile) : DF :=
  { cols := file.cells.headD [], rows := file.cells.tail }

/-- Model of `pd.read_csv` with `header=None, names=ns`: the given names
are assigned positionally and every row is data. -/
def readCsvNames (file : CSVFile) (ns : List String) : DF :=
  { cols := ns, rows := file.cells }

/-- Column selection `pdf[names]`: project the named columns in the
requested order; a missing column raises `KeyError` as pandas does. -/
def DF.select (df : DF) (ns : List String) : Except PyError DF :=
  if ns.all (fun n => decide (n ∈ df.cols)) then
    .ok { cols := ns,
          rows := df.rows.map (fun r => ns.map (fun n => r.getD (df.cols.findIdx (fun c => decide (c = n))) "")) }
  else .error (.keyError "columns not found")

/-- Lines 168-203, `_load_csv`: pop `infer_schema` (default `False`,
forcing `dtype=object`, i.e. untyped text cells as modelled in `DF`) and
`header` (default `False`) off the option bag; `str(header)` in
`["True","0"]` reads with a header row and applies `columns` as a
sub-selection; `header` `None`/`"False"` requires `columns`
(`InvalidOperationError` otherwise) and reads headerless with the names
assigned positionally; any other header value raises
`NotImplementedError`.  A structured-schema `columns` is also returned. -/
def _load_csv (file : CSVFile) (columns : Option Columns) (kwargs : List (String × PyVal)) :
    Except PyError (DF × Option SchemaM) :=
  let infer_schema := (lookupKw kwargs "infer_schema").getD (PyVal.bool false)
  let kw1 := if pyTruthy infer_schema then kwargs else setKw kwargs "dtype" (PyVal.str "object")
  let kw2 := removeKw kw1 "infer_schema"
  let header := (lookupKw kw2 "header").getD (PyVal.bool false)
  let _kw := removeKw kw2 "header"
  if pyStr header = "True" ∨ pyStr header = "0" then
    let pdf := readCsvHeaderRow file
    match columns with
    | Option.none => .ok (pdf, Option.none)
    | Option.some (Columns.names l) => (pdf.select l).map (fun d => (d, Option.none))
    | Option.some (Columns.schema sc) =>
      (pdf.select (sc.map Prod.fst)).map (fun d => (d, Option.some sc))
  else if header = PyVal.pynone ∨ pyStr header = "False" then
    match columns with
    | Option.none => .error (.invalidOperation "columns must be set if without header")
    | Option.some (Columns.names l) => .ok (readCsvNames file l, Option.none)
    | Option.some (Columns.schema sc) => .ok (readCsvNames file (sc.map Prod.fst), Option.some sc)
  else .error (.notImplemented (pyStr header ++ " is not supported"))

/-- The option dictionary `_save_csv` hands to `pandas.to_csv` for the
aspects the spec talks about: the effective `header` and `index` values
and the write target. -/
structure CsvWriteCall where
  target : String
  index : PyVal
  header : PyVal
  deriving Repr, DecidableEq

/-- Lines 164-165, `_save_csv`:
`to_csv(p.uri, **{"index": False, "header": False, **kwargs})` — the
merged dictionary takes `index`/`header` from the caller's `kwargs` when
present (dict unpacking lets the later `kwargs` overwrite the two
defaults), else `False`. -/
def _save_csv (df : DF) (p : FileParser) (kwargs : List (String × PyVal)) : CsvWriteCall :=
  let _ := df
  { target := p.uri,
    index := (lookupKw kwargs "index").getD (PyVal.bool false),
    header := (lookupKw kwargs "header").getD (PyVal.bool false) }

/-- Lines 222-241, `_convert_pyarrow_to_avro_schema`: an unfinished
placeholder that returns its input unchanged (the body is a TODO). -/
def _convert_pyarrow_to_avro_schema (columns : PyVal) : PyVal :=
  columns

/-- The argument list `_save_avro` ultimately passes to `pandavro.to_avro`:
the resolved `schema`, `append` and `times_as_micros` values plus the
remaining option bag. -/
structure AvroCall where
  schema : PyVal
  append : PyVal
  times_as_micros : PyVal
  rest : List (String × PyVal)
  deriving Repr, DecidableEq

/-- Lines 244-288, `_save_avro`, translated with its slips intact.  Local
Python variables that may be left unassigned (`schema`, `append`,
`times_as_micros`) are `Option`-valued; using one while unassigned is a
`NameError`, exactly where CPython would raise it (evaluation of the
`pdx.to_avro` argument list, left to right).  Notable source lines:
`del kw["infer_schema"]` inside the `schema` branch raises `KeyError`
when that key is absent; `if "append" in kw["append"]:` looks the key up
(`KeyError` when absent) and then runs a containment test on its value
(`TypeError` for non-iterable values, substring test for strings). -/
def _save_avro (columns : PyVal) (kwargs : List (String × PyVal)) : Except PyError AvroCall :=
  let kw := kwargs
  let step1 : Except PyError (Option PyVal × List (String × PyVal)) :=
    match lookupKw kw "schema" with
    | Option.none => .ok (Option.none, kw)
    | Option.some schema0 =>
      let resolved : Except PyError PyVal :=
        if schema0 = PyVal.pynone then
          .ok (if columns ≠ PyVal.pynone then _convert_pyarrow_to_avro_schema columns else schema0)
        else if pyTruthy columns then
          .error (.exn "set columns to None when schema is provided")
        else .ok schema0
      match resolved with
      | .error e => .error e
      | .ok schema =>
        if (lookupKw kw "infer_schema").isSome then
          .ok (Option.some schema, removeKw kw "infer_schema")
        else .error (.keyError "infer_schema")
  match step1 with
  | .error e => .error e
  | .ok (schemaVar, kw) =>
    let step2 : Except PyError (List (String × PyVal)) :=
      match lookupKw kw "infer_schema" with
      | Option.none => .ok kw
      | Option.some infer_schema =>
        if pyTruthy infer_schema then
          match schemaVar with
          | Option.none => .error (.nameError "schema")
          | Option.some schema =>
            if schema ≠ PyVal.pynone then
              .error (.exn "set infer_schema to False when schema is provided")
            else .ok (removeKw kw "infer_schema")
        else .ok (removeKw kw "infer_schema")
    match step2 with
    | .error e => .error e
    | .ok kw =>
      let step3 : Except PyError (Option PyVal × List (String × PyVal)) :=
        match lookupKw kw "append" with
        | Option.none => .error (.keyError "append")
        | Option.some v =>
          match v with
          | PyVal.str s =>
            if hasSubstr s.toList "append".toList then .ok (Option.some v, removeKw kw "append")
            else .ok (Option.none, kw)
          | _ => .error (.typeError "argument of type is not iterable")
      match step3 with
      | .error e => .error e
      | .ok (appendVar, kw) =>
        let timesStep : Option PyVal × List (String × PyVal) :=
          match lookupKw kw "times_as_micros" with
          | Option.none => (Option.none, kw)
          | Option.some v => (Option.some v, removeKw kw "times_as_micros")
        match timesStep with
        | (timesVar, kw) =>
          match schemaVar with
          | Option.none => .error (.nameError "schema")
          | Option.some schema =>
            match appendVar with
            | Option.none => .error (.nameError "append")
            | Option.some append =>
              match timesVar with
              | Option.none => .error (.nameError "times_as_micros")
              | Option.some times =>
                if (lookupKw kw "schema").isSome then
                  .error (.typeError "got multiple values for argument schema")
                else
                  .ok { schema := schema, append := append, times_as_micros := times, rest := kw }

/-- A sample one-cell dataframe used by the concrete witnesses. -/
def sampleDF : DF :=
  { cols := ["a"], rows := [["1"]] }

/-- The parser of the literal path `out.csv`. -/
def outParser : FileParser :=
  { scheme := "", uri := "out.csv", glob_pattern := "", path := "out.csv", file_format := "csv" }

/-- A file system on which every path exists and neither `remove` nor
`removetree` succeeds. -/
def fsExisting : FSModel :=
  { fexists := fun _ => true, removeOk := fun _ => false, removetreeOk := fun _ => false,
    isdir := fun _ => false, globEntries := fun _ _ => [], dirFiles := fun _ _ => [] }

/-- A file system with no files: nothing exists, no directory, every glob
matches nothing. -/
def fsEmpty : FSModel :=
  { fexists := fun _ => false, removeOk := fun _ => true, removetreeOk := fun _ => true,
    isdir := fun _ => false, globEntries := fun _ _ => [], dirFiles := fun _ _ => [] }

/-- A file system where the glob `*` under directory `dir` matches the
single entry `dir/weird.xyz`, whose suffix is in no registry entry. -/
def fsGlobXyz : FSModel :=
  { fexists := fun _ => false, removeOk := fun _ => true, removetreeOk := fun _ => true,
    isdir := fun _ => false,
    globEntries := fun u pat => if u = "dir" ∧ pat = "*" then ["dir/weird.xyz"] else [],
    dirFiles := fun _ _ => [] }

/-! Helper lemmas shared by the claim theorems. -/

/-- Suffix-match facts are nested: if both `w₁` and `w₂` are trailing
matches of `l` and `w₁` is no longer than `w₂`, then `w₁` is a trailing
match of `w₂`. -/
theorem endsWithL_mono (l w₁ w₂ : List Char) (h1 : endsWithL l w₁ = true)
    (h2 : endsWithL l w₂ = true) (hlen : w₁.length ≤ w₂.length) :
    endsWithL w₂ w₁ = true := by
  simp only [endsWithL, decide_eq_true_eq] at h1 h2 ⊢
  have len1 : w₁.length ≤ l.length := by
    have h := congrArg List.length h1
    simp only [List.length_drop] at h
    omega
  have len2 : w₂.length ≤ l.length := by
    have h := congrArg List.length h2
    simp only [List.length_drop] at h
    omega
  have hdd : w₂.drop (w₂.length - w₁.length)
      = (l.drop (l.length - w₂.length)).drop (w₂.length - w₁.length) := by rw [h2]
  rw [hdd, List.drop_drop]
  have harith : l.length - w₂.length + (w₂.length - w₁.length) = l.length - w₁.length := by omega
  rw [harith, h1]

/-- A string whose suffix matches `w₂` cannot also match a shorter `w₁`
that is not itself a trailing part of `w₂`. -/
theorem endsWithS_excl (s w₁ w₂ : String) (h : endsWithS s w₂ = true)
    (hlen : w₁.toList.length ≤ w₂.toList.length)
    (hne : endsWithL w₂.toList w₁.toList = false) :
    endsWithS s w₁ = false := by
  cases hc : endsWithS s w₁ with
  | false => rfl
  | true =>
    have hmono := endsWithL_mono s.toList w₁.toList w₂.toList hc h hlen
    exact absurd (hne.symm.trans hmono) (by simp)

/-- Enumerating an empty list of parsers yields no files, at any depth. -/
theorem get_single_files_nil (fs : FSModel) (fuel : Nat) :
    _get_single_files fs fuel [] = .ok [] := by
  cases fuel <;> simp [_get_single_files]

/-- C1 counterexample: the input `a*.csv` contains a `*`, yet the parser
gives it an EMPTY glob pattern (the scan never saw a separator, so `last`
stays at `len(path)` and `path[last+1:]` is empty) and `assert_no_glob`
succeeds on it. -/
theorem fileparser_no_separator_counterexample :
    (mkFileParser "a*.csv" Option.none).map FileParser.glob_pattern = .ok "" ∧
    ((mkFileParser "a*.csv" Option.none).bind FileParser.assert_no_glob).isOk = true := by
  decide

/-- C1 (amended): for a path containing a glob character that is preceded
by a `/` or `\` separator — equivalently, the constructor's scan stops at
a glob character with `last + 1` still inside the path — the parsed
`glob_pattern` is non-empty and `assert_no_glob` fails with the
`AssertionError` naming the path. -/
theorem fileparser_glob_separator_required (p : String) (fp : FileParser)
    (hok : mkFileParser p Option.none = .ok fp)
    (hglob : (globScan p.toList).2 = true)
    (hsep : (globScan p.toList).1 + 1 < p.toList.length) :
    fp.glob_pattern ≠ "" ∧
    fp.assert_no_glob = .error (.assertionError (fp.path ++ " has glob pattern")) := by
  have hg : fp.glob_pattern = String.mk (p.toList.drop ((globScan p.toList).1 + 1)) := by
    simp only [mkFileParser] at hok
    cases hinf : inferFormat (preParse p).suffix with
    | error e => rw [hinf] at hok; simp [Except.map] at hok
    | ok fmt =>
      rw [hinf] at hok
      simp only [Except.map, Except.ok.injEq] at hok
      rw [← hok]
      have hglob' : (globScan p.data).2 = true := hglob
      simp [preParse, hglob']
  have hne : fp.glob_pattern ≠ "" := by
    rw [hg]
    intro hcon
    have h0 : p.toList.drop ((globScan p.toList).1 + 1) = [] := congrArg String.toList hcon
    have hlen := congrArg List.length h0
    simp only [List.length_drop, List.length_nil] at hlen
    omega
  exact ⟨hne, by simp [FileParser.assert_no_glob, hne]⟩

/-- C1 witness: the concrete path `dir/*.csv` has the separator before
the `*`, parses with glob pattern `*.csv`, and `assert_no_glob` fails. -/
theorem fileparser_glob_separator_required_witness :
    ({ scheme := "", uri := "dir", glob_pattern := "*.csv", path := "dir/*.csv",
       file_format := "csv" } : FileParser).glob_pattern ≠ "" ∧
    ({ scheme := "", uri := "dir", glob_pattern := "*.csv", path := "dir/*.csv",
       file_format := "csv" } : FileParser).assert_no_glob =
      .error (.assertionError
        (({ scheme := "", uri := "dir", glob_pattern := "*.csv", path := "dir/*.csv",
            file_format := "csv" } : FileParser).path ++ " has glob pattern")) :=
  fileparser_glob_separator_required "dir/*.csv" _ (by decide) (by decide) (by decide)

/-- C2 counterexample: the dot-file path `.csv.gz` ends in `.csv.gz`, yet
its computed compound suffix is only `.gz` (pathlib treats the leading dot
as part of the stem), so parsing fails with `NotImplementedError` instead
of yielding CSV; and the empty-string hint, although not a recognized
format tag, does NOT fail — it falls back to suffix inference. -/
theorem format_inference_counterexample :
    mkFileParser ".csv.gz" Option.none = .error (.notImplemented ".gz is not supported") ∧
    (mkFileParser "a.csv" (Option.some "")).map FileParser.file_format = .ok "csv" := by
  decide

/-- C2 (amended): format resolution is driven by the parser's computed
compound suffix (the joined `pathlib` suffixes of the lowercased final
path component).  A path whose computed suffix ends in `.csv.gz` parses
to format `csv`; one whose computed suffix ends in `.parquet` parses to
`parquet`; a path whose computed suffix matches no registry entry fails
with the `NotImplementedError` naming the suffix; and a NON-EMPTY format
hint that is not a recognized format tag fails with the
`NotImplementedError` naming the hint. -/
theorem format_inference_by_suffix (s : String) :
    (endsWithS (pathSuffix s) ".csv.gz" = true →
      (mkFileParser s Option.none).map FileParser.file_format = .ok "csv") ∧
    (endsWithS (pathSuffix s) ".parquet" = true →
      (mkFileParser s Option.none).map FileParser.file_format = .ok "parquet") ∧
    ((∀ kv ∈ _FORMAT_MAP, endsWithS (pathSuffix s) kv.1 = false) →
      mkFileParser s Option.none = .error (.notImplemented (pathSuffix s ++ " is not supported"))) ∧
    (∀ h : String, h ≠ "" → h ∉ _FORMAT_MAP.map Prod.snd →
      mkFileParser s (Option.some h) = .error (.notImplemented (h ++ " is not supported"))) := by
  refine ⟨?_, ?_, ?_, ?_⟩
  · intro h1
    have n1 : endsWithS (pathSuffix s) ".csv" = false :=
      endsWithS_excl _ ".csv" ".csv.gz" h1 (by decide) (by decide)
    have hres : inferFormat (pathSuffix s) = .ok "csv" := by
      simp [inferFormat, _FORMAT_MAP, List.find?, n1, h1]
    simp only [mkFileParser]
    rw [show (preParse s).suffix = pathSuffix s from rfl, hres]
    rfl
  · intro h1
    have n1 : endsWithS (pathSuffix s) ".csv" = false :=
      endsWithS_excl _ ".csv" ".parquet" h1 (by decide) (by decide)
    have n2 : endsWithS (pathSuffix s) ".csv.gz" = false :=
      endsWithS_excl _ ".csv.gz" ".parquet" h1 (by decide) (by decide)
    have hres : inferFormat (pathSuffix s) = .ok "parquet" := by
      simp [inferFormat, _FORMAT_MAP, List.find?, n1, n2, h1]
    simp only [mkFileParser]
    rw [show (preParse s).suffix = pathSuffix s from rfl, hres]
    rfl
  · intro hall
    have e1 := hall (".csv", "csv") (by simp [_FORMAT_MAP])
    have e2 := hall (".csv.gz", "csv") (by simp [_FORMAT_MAP])
    have e3 := hall (".parquet", "parquet") (by simp [_FORMAT_MAP])
    have e4 := hall (".json", "json") (by simp [_FORMAT_MAP])
    have e5 := hall (".json.gz", "json") (by simp [_FORMAT_MAP])
    have e6 := hall (".avro", "avro") (by simp [_FORMAT_MAP])
    have e7 := hall (".avro.gz", "avro") (by simp [_FORMAT_MAP])
    have hres : inferFormat (pathSuffix s) =
        .error (.notImplemented (pathSuffix s ++ " is not supported")) := by
      simp [inferFormat, _FORMAT_MAP, List.find?, e1, e2, e3, e4, e5, e6, e7]
    simp only [mkFileParser]
    rw [show (preParse s).suffix = pathSuffix s from rfl, hres]
    rfl
  · intro h hne hmem
    simp only [mkFileParser]
    rw [if_neg hne, if_neg hmem]

/-- C2 witness: the registry examples from the spec — `a.csv.gz` is CSV,
`a.parquet` is Parquet, `a.xyz` and the unknown hint `xyz` both fail. -/
theorem format_inference_by_suffix_witness :
    (mkFileParser "a.csv.gz" Option.none).map FileParser.file_format = .ok "csv" ∧
    (mkFileParser "a.parquet" Option.none).map FileParser.file_format = .ok "parquet" ∧
    mkFileParser "a.xyz" Option.none =
      .error (.notImplemented (pathSuffix "a.xyz" ++ " is not supported")) ∧
    mkFileParser "a.csv" (Option.some "xyz") =
      .error (.notImplemented ("xyz" ++ " is not supported")) :=
  ⟨(format_inference_by_suffix "a.csv.gz").1 (by decide),
   (format_inference_by_suffix "a.parquet").2.1 (by decide),
   (format_inference_by_suffix "a.xyz").2.2.1 (by decide),
   (format_inference_by_suffix "a.csv").2.2.2 "xyz" (by decide) (by decide)⟩

/-- C3: a save with `mode="error"` onto an existing non-glob destination
fails with `FileExistsError` and performs NO mutating call at all — the
existing destination is untouched. -/
theorem save_mode_error_leaves_existing (df : DF) (uri : String)
    (format_hint : Option String) (fs : FSModel) (p : FileParser)
    (hp : (mkFileParser uri format_hint).bind FileParser.assert_no_glob = .ok p)
    (hex : fs.fexists uri = true) :
    save_df df uri format_hint "error" fs = ([], .error (.fileExists uri)) := by
  simp only [save_df]
  rw [hp]
  simp [hex]

/-- C3 witness: saving onto the pre-existing `out.csv` with mode `error`. -/
theorem save_mode_error_leaves_existing_witness :
    save_df sampleDF "out.csv" Option.none "error" fsExisting =
      ([], .error (.fileExists "out.csv")) :=
  save_mode_error_leaves_existing sampleDF "out.csv" Option.none fsExisting outParser
    (by decide) (by decide)

/-- C4: a save with `mode="overwrite"` onto an existing non-glob
destination first attempts `fs.remove`; only when that fails does it
attempt `fs.removetree`; and whatever the removals did (including the
case where both fail — the conclusion does not depend on
`fs.removetreeOk` at all, so a second failure is suppressed), the codec
saver is invoked and the call succeeds. -/
theorem save_overwrite_removal_policy (df : DF) (uri : String)
    (format_hint : Option String) (fs : FSModel) (p : FileParser)
    (hp : (mkFileParser uri format_hint).bind FileParser.assert_no_glob = .ok p)
    (hex : fs.fexists uri = true) :
    save_df df uri format_hint "overwrite" fs =
      (FSEffect.remove uri :: (if fs.removeOk uri then [] else [FSEffect.removetree uri]) ++
         [FSEffect.saveCall p.file_format p.uri],
       .ok ()) := by
  simp only [save_df]
  rw [hp]
  simp [hex]

/-- C4 witness: overwriting the existing `out.csv` on a file system where
both `remove` and `removetree` fail still ends with the saver invoked. -/
theorem save_overwrite_removal_policy_witness :
    save_df sampleDF "out.csv" Option.none "overwrite" fsExisting =
      ([FSEffect.remove "out.csv", FSEffect.removetree "out.csv",
        FSEffect.saveCall "csv" "out.csv"], .ok ()) := by
  have h := save_overwrite_removal_policy sampleDF "out.csv" Option.none fsExisting outParser
    (by decide) (by decide)
  simpa [fsExisting, outParser] using h

/-- Deleting one key of an option bag does not change the lookup of a
different key. -/
theorem lookupKw_removeKw_ne (kw : List (String × PyVal)) (k k' : String) (h : k ≠ k') :
    lookupKw (removeKw kw k') k = lookupKw kw k := by
  induction kw with
  | nil => rfl
  | cons a rest ih =>
    obtain ⟨a1, a2⟩ := a
    simp only [removeKw, ne_eq, decide_not] at ih ⊢
    by_cases ha : a1 = k'
    · have hak : a1 ≠ k := by
        intro hc
        apply h
        rw [← hc]
        exact ha
      simp [List.filter_cons, ha, lookupKw, hak, ih, Ne.symm h]
    · by_cases hak : a1 = k <;> simp [List.filter_cons, ha, lookupKw, hak, ih, h]

/-- Inserting one key into an option bag does not change the lookup of a
different key. -/
theorem lookupKw_setKw_ne (kw : List (String × PyVal)) (k k' : String) (v : PyVal)
    (h : k ≠ k') :
    lookupKw (setKw kw k' v) k = lookupKw kw k := by
  simp only [setKw, lookupKw]
  rw [if_neg (fun hc => h (hc.symm))]
  exact lookupKw_removeKw_ne kw k k' h

/-- The `header` value `_load_csv` branches on is the caller's `header`
option (popping `infer_schema` and setting `dtype` beforehand does not
affect it). -/
theorem lookupKw_header_prep (kwargs : List (String × PyVal)) (c : Bool) (v : PyVal) :
    lookupKw (removeKw (if c then kwargs else setKw kwargs "dtype" v) "infer_schema") "header" =
      lookupKw kwargs "header" := by
  cases c with
  | true =>
    simpa using lookupKw_removeKw_ne kwargs "header" "infer_schema" (by decide)
  | false =>
    simp only [Bool.false_eq_true, if_false]
    rw [lookupKw_removeKw_ne _ "header" "infer_schema" (by decide)]
    exact lookupKw_setKw_ne kwargs "header" "dtype" v (by decide)

/-- C5: the CSV loader's header policy.  With `header` absent, `False` or
`None`: no `columns` fails with `InvalidOperationError` ("columns must be
set if without header"), while a plain name list succeeds and assigns the
names positionally to the headerless cell matrix.  Any `header` value
other than the recognized `True`/`0`/`False`/`None` fails with
`NotImplementedError`. -/
theorem load_csv_header_policy (file : CSVFile) :
    (∀ kwargs : List (String × PyVal),
       (lookupKw kwargs "header" = Option.none ∨
        lookupKw kwargs "header" = Option.some (PyVal.bool false) ∨
        lookupKw kwargs "header" = Option.some PyVal.pynone) →
       _load_csv file Option.none kwargs =
         .error (.invalidOperation "columns must be set if without header")) ∧
    (∀ (kwargs : List (String × PyVal)) (l : List String),
       (lookupKw kwargs "header" = Option.none ∨
        lookupKw kwargs "header" = Option.some (PyVal.bool false) ∨
        lookupKw kwargs "header" = Option.some PyVal.pynone) →
       _load_csv file (Option.some (Columns.names l)) kwargs =
         .ok ({ cols := l, rows := file.cells }, Option.none)) ∧
    (∀ (kwargs : List (String × PyVal)) (columns : Option Columns) (h : PyVal),
       lookupKw kwargs "header" = Option.some h →
       pyStr h ≠ "True" → pyStr h ≠ "0" → pyStr h ≠ "False" → h ≠ PyVal.pynone →
       _load_csv file columns kwargs =
         .error (.notImplemented (pyStr h ++ " is not supported"))) := by
  refine ⟨?_, ?_, ?_⟩
  · intro kwargs hh
    simp only [_load_csv]
    rw [lookupKw_header_prep]
    rcases hh with h0 | h0 | h0 <;>
      · rw [h0]
        simp only [Option.getD_none, Option.getD_some]
        rw [if_neg (by decide), if_pos (by decide)]
  · intro kwargs l hh
    simp only [_load_csv]
    rw [lookupKw_header_prep]
    rcases hh with h0 | h0 | h0 <;>
      · rw [h0]
        simp only [Option.getD_none, Option.getD_some]
        rw [if_neg (by decide), if_pos (by decide)]
        rfl
  · intro kwargs columns h hsome hT h0 hF hN
    simp only [_load_csv]
    rw [lookupKw_header_prep, hsome]
    simp only [Option.getD_some]
    have c1 : ¬(pyStr h = "True" ∨ pyStr h = "0") := by
      rintro (hc | hc)
      · exact hT hc
      · exact h0 hc
    have c2 : ¬(h = PyVal.pynone ∨ pyStr h = "False") := by
      rintro (hc | hc)
      · exact hN hc
      · exact hF hc
    rw [if_neg c1, if_neg c2]

/-- C5 witness: on a one-row headerless file, loading without `columns`
fails with the missing-columns error, loading with `columns=["a","b"]`
succeeds positionally, and `header="x"` is rejected. -/
theorem load_csv_header_policy_witness :
    _load_csv ⟨[["1", "2"]]⟩ Option.none [] =
      .error (.invalidOperation "columns must be set if without header") ∧
    _load_csv ⟨[["1", "2"]]⟩ (Option.some (Columns.names ["a", "b"])) [("header", PyVal.bool false)] =
      .ok ({ cols := ["a", "b"], rows := [["1", "2"]] }, Option.none) ∧
    _load_csv ⟨[["1", "2"]]⟩ Option.none [("header", PyVal.str "x")] =
      .error (.notImplemented (pyStr (PyVal.str "x") ++ " is not supported")) :=
  ⟨(load_csv_header_policy ⟨[["1", "2"]]⟩).1 [] (Or.inl rfl),
   (load_csv_header_policy ⟨[["1", "2"]]⟩).2.1 [("header", PyVal.bool false)] ["a", "b"]
     (Or.inr (Or.inl rfl)),
   (load_csv_header_policy ⟨[["1", "2"]]⟩).2.2 [("header", PyVal.str "x")] Option.none
     (PyVal.str "x") rfl (by decide) (by decide) (by decide) (by decide)⟩

/-- C6 counterexample: passing `header=True` in the options makes
`_save_csv` hand `header=True` to `to_csv` — the output is NOT written
header-free for every option combination, because `**kwargs` overrides
the two defaults in the merged dictionary. -/
theorem save_csv_header_override_counterexample :
    (_save_csv sampleDF outParser [("header", PyVal.bool true)]).header ≠ PyVal.bool false ∧
    (_save_csv sampleDF outParser [("header", PyVal.bool true)]).header = PyVal.bool true := by
  decide

/-- C6 (amended): `_save_csv` defaults `header` and `index` to `False`
when the caller does not supply them, and otherwise passes the
caller-supplied values through (the caller's options override the
defaults). -/
theorem save_csv_default_header_index (df : DF) (p : FileParser)
    (kwargs : List (String × PyVal)) :
    (lookupKw kwargs "header" = Option.none →
      (_save_csv df p kwargs).header = PyVal.bool false) ∧
    (lookupKw kwargs "index" = Option.none →
      (_save_csv df p kwargs).index = PyVal.bool false) ∧
    (∀ v, lookupKw kwargs "header" = Option.some v → (_save_csv df p kwargs).header = v) ∧
    (∀ v, lookupKw kwargs "index" = Option.some v → (_save_csv df p kwargs).index = v) := by
  refine ⟨fun h => ?_, fun h => ?_, fun v h => ?_, fun v h => ?_⟩ <;>
    simp [_save_csv, h]

/-- C6 witness: with no options both defaults apply; with `header=True`
the override applies. -/
theorem save_csv_default_header_index_witness :
    (_save_csv sampleDF outParser []).header = PyVal.bool false ∧
    (_save_csv sampleDF outParser []).index = PyVal.bool false ∧
    (_save_csv sampleDF outParser [("header", PyVal.bool true)]).header = PyVal.bool true :=
  ⟨(save_csv_default_header_index sampleDF outParser []).1 rfl,
   (save_csv_default_header_index sampleDF outParser []).2.1 rfl,
   (save_csv_default_header_index sampleDF outParser [("header", PyVal.bool true)]).2.2.1
     (PyVal.bool true) rfl⟩

/-- The loading loop over non-glob files whose loads all succeed collects
the frames in order and ends with the last file's schema (or the carried
one when there are no files). -/
theorem load_loop_pure (L : FileParser → DF × Option SchemaM) (files : List FileParser)
    (sch : Option SchemaM) (hg : ∀ f ∈ files, f.glob_pattern = "") :
    load_loop (fun f => .ok (L f)) files sch =
      .ok (files.map (fun f => (L f).1), (files.map (fun f => (L f).2)).getLastD sch) := by
  induction files generalizing sch with
  | nil => rfl
  | cons f rest ih =>
    have h1 : f.glob_pattern = "" := hg f (List.mem_cons_self f rest)
    have hrest : ∀ x ∈ rest, x.glob_pattern = "" := fun x hx => hg x (List.mem_cons_of_mem f hx)
    have ha : f.assert_no_glob = .ok f := by simp [FileParser.assert_no_glob, h1]
    have hrec := ih ((L f).2) hrest
    simp only [load_loop, ha, hrec]
    simp only [List.map_cons, List.getLastD_cons]

/-- C7: loading a non-empty list of enumerated non-glob files (each load
succeeding) concatenates the per-file rows in enumeration order into one
table, and the schema attached to the result is the schema returned for
the LAST file processed. -/
theorem load_concat_rows_order_schema_last (L : FileParser → DF × Option SchemaM)
    (f : FileParser) (rest : List FileParser)
    (hg : ∀ x ∈ f :: rest, x.glob_pattern = "") :
    loadAndConcat (fun x => .ok (L x)) (f :: rest) =
      .ok ({ cols := (L f).1.cols,
             rows := ((f :: rest).map (fun x => (L x).1.rows)).flatten },
           ((f :: rest).map (fun x => (L x).2)).getLastD Option.none) := by
  simp only [loadAndConcat]
  rw [load_loop_pure L (f :: rest) Option.none hg]
  simp [pd_concat, List.map_map, Function.comp_def]

/-- C7 witness: two concrete single-file parsers loaded by a loader that
returns one row per file and a schema; the rows appear in order and the
final schema is the last file's. -/
theorem load_concat_rows_order_schema_last_witness :
    loadAndConcat
        (fun x => .ok ({ cols := ["c1"], rows := [[x.path]] }, Option.some [("c1", "str")]))
        [{ scheme := "", uri := "a.csv", glob_pattern := "", path := "a.csv", file_format := "csv" },
         { scheme := "", uri := "b.csv", glob_pattern := "", path := "b.csv", file_format := "csv" }] =
      .ok ({ cols := ["c1"], rows := [["a.csv"], ["b.csv"]] }, Option.some [("c1", "str")]) := by
  have h := load_concat_rows_order_schema_last
    (fun x => ({ cols := ["c1"], rows := [[x.path]] }, Option.some [("c1", "str")]))
    { scheme := "", uri := "a.csv", glob_pattern := "", path := "a.csv", file_format := "csv" }
    [{ scheme := "", uri := "b.csv", glob_pattern := "", path := "b.csv", file_format := "csv" }]
    (by decide)
  simpa using h

/-- C8: the Avro saver does NOT give `append` the documented overwrite
default — with `append` absent from the options (and no other options
supplied) the lookup `kw["append"]` in `if "append" in kw["append"]:`
raises `KeyError`; and supplying `append=True` makes the containment test
run on a boolean, raising `TypeError`.  Either way the claimed
default-overwrite save never happens. -/
theorem save_avro_append_not_defaulted :
    _save_avro PyVal.pynone [] = .error (.keyError "append") ∧
    _save_avro PyVal.pynone [("append", PyVal.bool true)] =
      .error (.typeError "argument of type is not iterable") :=
  ⟨rfl, rfl⟩

/-- C9: a load over an empty path list — or over a single glob path
matching no file — reaches `pd.concat` with no frames and fails with its
`ValueError`, rather than returning an empty table. -/
theorem load_empty_enumeration_concat_error
    (L : FileParser → Except PyError (DF × Option SchemaM)) (fs : FSModel)
    (format_hint : Option String) (fuel : Nat) :
    load_df L fs fuel [] format_hint = .error (.valueError "No objects to concatenate") ∧
    (∀ (s : String) (fp : FileParser),
       mkFileParser s format_hint = .ok fp → fp.glob_pattern ≠ "" →
       fs.globEntries fp.uri fp.glob_pattern = [] →
       load_df L fs (fuel + 1) [s] format_hint =
         .error (.valueError "No objects to concatenate")) := by
  constructor
  · simp only [load_df, mapExcept]
    rw [get_single_files_nil]
    rfl
  · intro s fp h1 h2 h3
    simp only [load_df, mapExcept]
    rw [h1]
    simp only [_get_single_files]
    rw [if_pos h2, h3]
    simp only [mapExcept]
    rw [get_single_files_nil]
    rfl

/-- C9 witness: loading the empty list, and loading the glob `dir/*.csv`
on a file system where it matches nothing, both fail with the
concatenation `ValueError`. -/
theorem load_empty_enumeration_concat_error_witness :
    load_df (fun _ => .ok (sampleDF, Option.none)) fsEmpty 5 [] Option.none =
      .error (.valueError "No objects to concatenate") ∧
    load_df (fun _ => .ok (sampleDF, Option.none)) fsEmpty 1 ["dir/*.csv"] Option.none =
      .error (.valueError "No objects to concatenate") :=
  ⟨(load_empty_enumeration_concat_error (fun _ => .ok (sampleDF, Option.none))
      fsEmpty Option.none 5).1,
   (load_empty_enumeration_concat_error (fun _ => .ok (sampleDF, Option.none))
      fsEmpty Option.none 0).2 "dir/*.csv"
     { scheme := "", uri := "dir", glob_pattern := "*.csv", path := "dir/*.csv",
       file_format := "csv" }
     (by decide) (by decide) rfl⟩

/-- C10: glob expansion re-parses each matched entry as
`FileParser(join(uri, basename(entry)))` with NO format hint — so when a
matched file's own suffix is in no registry entry, the whole enumeration
fails with that parse error, even though the original path had been
parsed successfully with an explicit (recognized) hint. -/
theorem glob_expansion_drops_hint (fs : FSModel) (fuel : Nat) (s : String)
    (format_hint : Option String) (fp : FileParser) (x : String) (e : PyError)
    (_h1 : mkFileParser s format_hint = .ok fp)
    (h2 : fp.glob_pattern ≠ "")
    (h3 : fs.globEntries fp.uri fp.glob_pattern = [x])
    (h4 : mkFileParser (pyJoin fp.uri (pyBasename x)) Option.none = .error e) :
    _get_single_files fs (fuel + 1) [fp] = .error e := by
  simp only [_get_single_files]
  rw [if_pos h2, h3]
  simp only [mapExcept]
  rw [h4]

/-- C10 witness: `dir/*` parsed with the recognized hint `csv` matches the
single entry `dir/weird.xyz`, whose re-parse without hint fails with
`NotImplementedError` for `.xyz`, failing the enumeration. -/
theorem glob_expansion_drops_hint_witness :
    _get_single_files fsGlobXyz 1
        [{ scheme := "", uri := "dir", glob_pattern := "*", path := "dir/*",
           file_format := "csv" }] =
      .error (.notImplemented ".xyz is not supported") :=
  glob_expansion_drops_hint fsGlobXyz 0 "dir/*" (Option.some "csv")
    { scheme := "", uri := "dir", glob_pattern := "*", path := "dir/*", file_format := "csv" }
    "dir/weird.xyz" (.notImplemented ".xyz is not supported")
    (by decide) (by decide) rfl (by decide)
